import Mathlib

/-!
Verification of the preprocessor behavior of
`src/Legacy/QFog2-MachO/QFogSource/Headers/CommonMach-OPrefix.h`.

The file is a compiler prefix header consisting solely of preprocessor
directives: object-like macro definitions, header inclusions, and
conditional blocks guarded by `#if` / `#ifndef` / `#error`.  We embed it
shallowly: macro replacement bodies become a small expression type
`PPExpr`, the preprocessor state is a macro table plus the lists of
includes performed, defines emitted by this file, and `#error` messages
raised, and each section of the header becomes a Lean function on that
state, written directive by directive in source order.

Expression evaluation follows the C preprocessor rules for `#if`
conditions: an identifier with no macro definition evaluates to 0, an
object-like macro defined with an empty replacement list is not a valid
arithmetic operand, `!`, `==`, `||`, `&&` yield 1 or 0, and `||` / `&&`
short-circuit.  Evaluation is fueled because a macro table may in
general contain cyclic definitions.

The input configuration of a run is the prior state of the two macros
the header conditions on: the value of `_do_debug` (an integer, or
undefined) and the prior definition of `FIXEDDECIMAL` (a replacement
body, or undefined).  `runHeaderEnv` additionally takes an arbitrary
ambient macro environment for the other predefined macros of the
translation unit.
-/

/-- Replacement body of an object-like macro, and the expression
language of `#if` conditions appearing in the header: integer literals,
identifiers, `!`, `==`, `||`, `&&`, and the empty replacement list
(a macro defined with no tokens, as in `#define Debug_Throw`). -/
inductive PPExpr where
  | num : Int → PPExpr
  | ident : String → PPExpr
  | notE : PPExpr → PPExpr
  | eqE : PPExpr → PPExpr → PPExpr
  | orE : PPExpr → PPExpr → PPExpr
  | andE : PPExpr → PPExpr → PPExpr
  | empty : PPExpr
deriving DecidableEq, Repr

/-- Preprocessor state: the macro table (newest definition first), the
defines this file itself has executed (in order), the headers included
(in order), and the `#error` messages raised (in order). -/
structure PPState where
  defs : List (String × PPExpr)
  emitted : List (String × PPExpr)
  includes : List String
  errors : List String
deriving DecidableEq, Repr

/-- Look up the replacement body of a macro in a table, newest first. -/
def lookupDef : List (String × PPExpr) → String → Option PPExpr
  | [], _ => none
  | (k, v) :: rest, n => if k = n then some v else lookupDef rest n

/-- A `#define NAME BODY` directive: records the macro and logs it. -/
def defineM (s : PPState) (n : String) (e : PPExpr) : PPState :=
  { s with defs := (n, e) :: s.defs, emitted := s.emitted ++ [(n, e)] }

/-- An `#include` directive: appends the header name to the include log. -/
def includeH (s : PPState) (p : String) : PPState :=
  { s with includes := s.includes ++ [p] }

/-- An `#error` directive: appends the message to the error log
(the preprocessor reports the error and continues). -/
def errorM (s : PPState) (m : String) : PPState :=
  { s with errors := s.errors ++ [m] }

/-- Whether a macro is currently defined (for `#ifndef`). -/
def isDefinedM (s : PPState) (n : String) : Bool :=
  (lookupDef s.defs n).isSome

/-- Evaluate a `#if` arithmetic expression under a macro table, with
fuel against cyclic macro tables.  C preprocessor semantics: an
identifier with no definition evaluates to 0; a macro with an empty
replacement list is not a valid operand (`none`); the boolean operators
yield 1 or 0 and `||` / `&&` short-circuit. -/
def evalExpr (defs : List (String × PPExpr)) : Nat → PPExpr → Option Int
  | 0, _ => none
  | fuel + 1, e =>
    match e with
    | .num n => some n
    | .empty => none
    | .ident n =>
      match lookupDef defs n with
      | none => some 0
      | some .empty => none
      | some b => evalExpr defs fuel b
    | .notE a =>
      match evalExpr defs fuel a with
      | none => none
      | some x => some (if x = 0 then 1 else 0)
    | .eqE a b =>
      match evalExpr defs fuel a, evalExpr defs fuel b with
      | some x, some y => some (if x = y then 1 else 0)
      | _, _ => none
    | .orE a b =>
      match evalExpr defs fuel a with
      | none => none
      | some x =>
        if x ≠ 0 then some 1
        else
          match evalExpr defs fuel b with
          | none => none
          | some y => some (if y ≠ 0 then 1 else 0)
    | .andE a b =>
      match evalExpr defs fuel a with
      | none => none
      | some x =>
        if x = 0 then some 0
        else
          match evalExpr defs fuel b with
          | none => none
          | some y => some (if y ≠ 0 then 1 else 0)

/-- Default evaluation fuel; the macro chains of this header have depth
at most four. -/
def evalFuel : Nat := 64

/-- Truth of a `#if` condition in a state: nonzero value. -/
def evalCond (s : PPState) (e : PPExpr) : Bool :=
  match evalExpr s.defs evalFuel e with
  | some v => v ≠ 0
  | none => false

/-- The fully expanded value of a macro in a state, following macro
chains (for example `PP_Target_Classic` expands through
`!PP_Target_Carbon` to 0). -/
def evalMacro (s : PPState) (n : String) : Option Int :=
  evalExpr s.defs evalFuel (.ident n)

/-- Input configuration of a preprocessing run: the definition status
of the two macros the header conditions on.  `doDebug = none` means
`_do_debug` is not predefined; `some v` means it is predefined to the
integer `v`.  `fixeddecimal` is the prior replacement body of
`FIXEDDECIMAL`, if any. -/
structure Config where
  doDebug : Option Int
  fixeddecimal : Option PPExpr
deriving DecidableEq, Repr

/-- A configuration is supported when `_do_debug` is predefined to 0
or 1; these are the two configurations under which the header is meant
to compile. -/
def Config.supported (cfg : Config) : Prop :=
  cfg.doDebug = some 0 ∨ cfg.doDebug = some 1

instance (cfg : Config) : Decidable cfg.supported := by
  unfold Config.supported; infer_instance

/-- Initial macro table: the configured `_do_debug` and `FIXEDDECIMAL`
entries in front of the ambient environment `env` of other predefined
macros. -/
def initDefs (cfg : Config) (env : List (String × PPExpr)) :
    List (String × PPExpr) :=
  (match cfg.doDebug with
   | some v => [("_do_debug", PPExpr.num v)]
   | none => []) ++
  (match cfg.fixeddecimal with
   | some e => [("FIXEDDECIMAL", e)]
   | none => []) ++ env

/-- Initial preprocessor state for a run. -/
def initState (cfg : Config) (env : List (String × PPExpr)) : PPState :=
  { defs := initDefs cfg env, emitted := [], includes := [], errors := [] }

/-- Lines 9 to 15: the Mach-O target macros.  Carbon is selected and
the Classic and OS 8 macros are its negation. -/
def targetMacros (s : PPState) : PPState :=
  let s := defineM s "PP_Target_Carbon" (.num 1)
  let s := defineM s "PP_Target_Classic" (.notE (.ident "PP_Target_Carbon"))
  let s := defineM s "TARGET_API_MAC_CARBON" (.ident "PP_Target_Carbon")
  let s := defineM s "TARGET_API_MAC_OS8" (.ident "PP_Target_Classic")
  defineM s "TARGET_API_MAC_OSX" (.ident "PP_Target_Carbon")

/-- Lines 21 to 30: PowerPlant options. -/
def ppOptions (s : PPState) : PPState :=
  let s := defineM s "PP_Uses_PowerPlant_Namespace" (.num 0)
  let s := defineM s "PP_Supports_Pascal_Strings" (.num 1)
  let s := defineM s "PP_StdDialogs_Option" (.ident "PP_StdDialogs_NavServicesOnly")
  let s := defineM s "PP_Uses_Old_Integer_Types" (.num 0)
  let s := defineM s "PP_Obsolete_AllowTargetSwitch" (.num 0)
  let s := defineM s "PP_Obsolete_ThrowExceptionCode" (.num 0)
  let s := defineM s "PP_Warn_Obsolete_Classes" (.num 1)
  defineM s "PP_Suppress_Notes_221" (.num 1)

/-- Lines 32 to 36: the MSL and math includes. -/
def mslIncludes (s : PPState) : PPState :=
  let s := includeH s "MSLCarbonPrefix.h"
  let s := includeH s "cmath"
  let s := includeH s "fp.h"
  includeH s "complex"

/-- Lines 40 to 42: define `FIXEDDECIMAL` to 1 only when it is not
already defined. -/
def fixeddecimalGuard (s : PPState) : PPState :=
  if isDefinedM s "FIXEDDECIMAL" then s
  else defineM s "FIXEDDECIMAL" (.num 1)

/-- Line 46. -/
def blockmoveDefine (s : PPState) : PPState :=
  defineM s "NO_BLOCKMOVE_INLINE" (.num 1)

/-- Lines 54 to 60: the two `#error` guards validating `_do_debug`. -/
def doDebugGuards (s : PPState) : PPState :=
  let s :=
    if isDefinedM s "_do_debug" then s
    else errorM s "_do_debug is not yet #defined"
  if evalCond s (.notE (.orE (.eqE (.ident "_do_debug") (.num 0))
      (.eqE (.ident "_do_debug") (.num 1)))) then
    errorM s "_do_debug is not zero or one"
  else s

/-- Lines 65 to 73: MacOS and new-PowerPlant-API macros. -/
def macosMacros (s : PPState) : PPState :=
  let s := defineM s "OLDROUTINENAMES" (.num 0)
  let s := defineM s "OLDROUTINELOCATIONS" (.num 0)
  let s := defineM s "SystemSevenOrLater" (.num 1)
  let s := defineM s "PP_Obsolete_Constants" (.num 0)
  let s := defineM s "PP_Obsolete_Stream_Creators" (.num 0)
  defineM s "PP_Obsolete_Array_API" (.num 0)

/-- Lines 77 to 79: a block disabled by `#if 0`. -/
def destOsBlock (s : PPState) : PPState :=
  if evalCond s (.num 0) then defineM s "__dest_os" (.ident "__mac_os")
  else s

/-- Lines 81 to 116: the `#if _do_debug` conditional setting the
framework debugging flags.  The debug branch also defines the empty
macros `Debug_Throw` and `Debug_Signal`; the release branch also
defines `DEBUG_NEW` as `DEBUG_NEW_OFF`. -/
def debugFlagsBlock (s : PPState) : PPState :=
  if evalCond s (.ident "_do_debug") then
    let s := defineM s "Debug_Throw" .empty
    let s := defineM s "Debug_Signal" .empty
    let s := defineM s "PP_DEBUG" (.num 1)
    let s := defineM s "PP_SPOTLIGHT_SUPPORT" (.num 1)
    let s := defineM s "PP_QC_SUPPORT" (.num 0)
    defineM s "PP_DEBUGNEW_SUPPORT" (.num 0)
  else
    let s := defineM s "PP_DEBUG" (.num 0)
    let s := defineM s "PP_SPOTLIGHT_SUPPORT" (.num 0)
    let s := defineM s "PP_QC_SUPPORT" (.num 0)
    let s := defineM s "PP_DEBUGNEW_SUPPORT" (.num 0)
    defineM s "DEBUG_NEW" (.ident "DEBUG_NEW_OFF")

/-- Line 119. -/
def ppDebugInclude (s : PPState) : PPState :=
  includeH s "PP_Debug.h"

/-- Lines 121 to 155: inside `#if _do_debug`, the DebugNew leak-log
block guarded by `#if PP_DEBUGNEW_SUPPORT && DEBUG_NEW == DEBUG_NEW_LEAKS`,
which would include `new.h` and redefine `new` as `NEW`. -/
def debugNewBlock (s : PPState) : PPState :=
  if evalCond s (.ident "_do_debug") then
    if evalCond s (.andE (.ident "PP_DEBUGNEW_SUPPORT")
        (.eqE (.ident "DEBUG_NEW") (.ident "DEBUG_NEW_LEAKS"))) then
      let s := includeH s "new.h"
      defineM s "new" (.ident "NEW")
    else s
  else s

/-- The chain of GUI widget headers included at lines 160 to 171,
in source order. -/
def widgetChain : List String :=
  ["LTable.h", "LTableView.h", "LTableMultiSelector.h",
   "LTableMultiGeometry.h", "LTableMonoGeometry.h", "LGroupBox.h",
   "LIconPane.h", "PP_DebugMacros.h", "LPopupButton.h",
   "UNavServicesDialogs.h", "UControlRegistry.h"]

/-- Lines 160 to 171: include the widget header chain. -/
def widgetIncludes (s : PPState) : PPState :=
  let s := includeH s "LTable.h"
  let s := includeH s "LTableView.h"
  let s := includeH s "LTableMultiSelector.h"
  let s := includeH s "LTableMultiGeometry.h"
  let s := includeH s "LTableMonoGeometry.h"
  let s := includeH s "LGroupBox.h"
  let s := includeH s "LIconPane.h"
  let s := includeH s "PP_DebugMacros.h"
  let s := includeH s "LPopupButton.h"
  let s := includeH s "UNavServicesDialogs.h"
  includeH s "UControlRegistry.h"

/-- Line 175. -/
def myNotationIncl (s : PPState) : PPState :=
  includeH s "my_notation.h"

/-- Line 177. -/
def macGuiApp (s : PPState) : PPState :=
  defineM s "_mac_gui_app" .empty

/-- Process the whole header, section by section in source order,
starting from the configuration `cfg` and the ambient macro
environment `env`. -/
def runHeaderEnv (cfg : Config) (env : List (String × PPExpr)) : PPState :=
  initState cfg env
    |> targetMacros
    |> ppOptions
    |> mslIncludes
    |> fixeddecimalGuard
    |> blockmoveDefine
    |> doDebugGuards
    |> macosMacros
    |> destOsBlock
    |> debugFlagsBlock
    |> ppDebugInclude
    |> debugNewBlock
    |> widgetIncludes
    |> myNotationIncl
    |> macGuiApp

/-- Process the whole header from a configuration alone (no other
macros predefined). -/
def runHeader (cfg : Config) : PPState :=
  runHeaderEnv cfg []

/-- The full list of headers included by a successful expansion, in
order: the MSL and math headers, `PP_Debug.h`, the widget chain, and
`my_notation.h`. -/
def headerIncludeList : List String :=
  ["MSLCarbonPrefix.h", "cmath", "fp.h", "complex", "PP_Debug.h"] ++
    widgetChain ++ ["my_notation.h"]

/-- C1: preprocessing the header raises an `#error` if and only if
`_do_debug` is undefined or its value is neither 0 nor 1; under the two
supported configurations no error is raised, and every error the file
can raise is one of its two `#error` directives. -/
theorem headerErrors_characterization (cfg : Config) :
    ((runHeader cfg).errors = [] ↔ cfg.supported) ∧
    (∀ m ∈ (runHeader cfg).errors,
      m = "_do_debug is not yet #defined" ∨
      m = "_do_debug is not zero or one") := by
  obtain ⟨d, f⟩ := cfg
  rcases d with _ | v
  · rcases f with _ | e <;>
      simp [Config.supported, runHeader, runHeaderEnv, initState, initDefs,
        targetMacros, ppOptions, mslIncludes, fixeddecimalGuard,
        blockmoveDefine, doDebugGuards, macosMacros, destOsBlock,
        debugFlagsBlock, ppDebugInclude, debugNewBlock, widgetIncludes,
        myNotationIncl, macGuiApp, defineM, includeH, errorM, isDefinedM,
        lookupDef, evalCond, evalExpr, evalFuel, evalMacro]
  · by_cases hv0 : v = 0
    · subst hv0
      rcases f with _ | e <;>
        simp [Config.supported, runHeader, runHeaderEnv, initState, initDefs,
          targetMacros, ppOptions, mslIncludes, fixeddecimalGuard,
          blockmoveDefine, doDebugGuards, macosMacros, destOsBlock,
          debugFlagsBlock, ppDebugInclude, debugNewBlock, widgetIncludes,
          myNotationIncl, macGuiApp, defineM, includeH, errorM, isDefinedM,
          lookupDef, evalCond, evalExpr, evalFuel, evalMacro]
    · by_cases hv1 : v = 1
      · subst hv1
        rcases f with _ | e <;>
          simp [Config.supported, runHeader, runHeaderEnv, initState, initDefs,
            targetMacros, ppOptions, mslIncludes, fixeddecimalGuard,
            blockmoveDefine, doDebugGuards, macosMacros, destOsBlock,
            debugFlagsBlock, ppDebugInclude, debugNewBlock, widgetIncludes,
            myNotationIncl, macGuiApp, defineM, includeH, errorM, isDefinedM,
            lookupDef, evalCond, evalExpr, evalFuel, evalMacro]
      · rcases f with _ | e <;>
          simp [Config.supported, runHeader, runHeaderEnv, initState, initDefs,
            targetMacros, ppOptions, mslIncludes, fixeddecimalGuard,
            blockmoveDefine, doDebugGuards, macosMacros, destOsBlock,
            debugFlagsBlock, ppDebugInclude, debugNewBlock, widgetIncludes,
            myNotationIncl, macGuiApp, defineM, includeH, errorM, isDefinedM,
            lookupDef, evalCond, evalExpr, evalFuel, evalMacro, hv0, hv1]

/-- Witness for C1 at the concrete configuration with `_do_debug` 1. -/
theorem headerErrors_characterization_witness :
    (runHeader ⟨some 1, none⟩).errors = [] :=
  (headerErrors_characterization ⟨some 1, none⟩).1.mpr (Or.inr rfl)

/-- C2: in both supported configurations the target macros select the
Carbon API surface: `PP_Target_Carbon` is 1, `PP_Target_Classic` is 0,
`TARGET_API_MAC_CARBON` is 1, `TARGET_API_MAC_OS8` is 0 and
`TARGET_API_MAC_OSX` is 1; exactly one of the Carbon/Classic pair is
enabled. -/
theorem headerTargetMacros_carbon (cfg : Config) (h : cfg.supported) :
    evalMacro (runHeader cfg) "PP_Target_Carbon" = some 1 ∧
    evalMacro (runHeader cfg) "PP_Target_Classic" = some 0 ∧
    evalMacro (runHeader cfg) "TARGET_API_MAC_CARBON" = some 1 ∧
    evalMacro (runHeader cfg) "TARGET_API_MAC_OS8" = some 0 ∧
    evalMacro (runHeader cfg) "TARGET_API_MAC_OSX" = some 1 := by
  obtain ⟨d, f⟩ := cfg
  rcases d with _ | v
  · exact absurd h (by simp [Config.supported])
  · have hv : v = 0 ∨ v = 1 := by simpa [Config.supported] using h
    obtain rfl | rfl := hv <;> rcases f with _ | e <;>
      simp [runHeader, runHeaderEnv, initState, initDefs,
        targetMacros, ppOptions, mslIncludes, fixeddecimalGuard,
        blockmoveDefine, doDebugGuards, macosMacros, destOsBlock,
        debugFlagsBlock, ppDebugInclude, debugNewBlock, widgetIncludes,
        myNotationIncl, macGuiApp, defineM, includeH, errorM, isDefinedM,
        lookupDef, evalCond, evalExpr, evalFuel, evalMacro]

/-- Witness for C2 at the concrete configuration with `_do_debug` 1. -/
theorem headerTargetMacros_carbon_witness :
    evalMacro (runHeader ⟨some 1, none⟩) "PP_Target_Carbon" = some 1 :=
  (headerTargetMacros_carbon ⟨some 1, none⟩ (Or.inr rfl)).1

/-- C3: the debugging feature flags follow `_do_debug`: in the debug
configuration `PP_DEBUG` and `PP_SPOTLIGHT_SUPPORT` are 1; in the
release configuration they are 0 and `DEBUG_NEW` is defined as
`DEBUG_NEW_OFF`; in both configurations `PP_QC_SUPPORT` and
`PP_DEBUGNEW_SUPPORT` are 0. -/
theorem headerDebugFlags (cfg : Config) (h : cfg.supported) :
    (cfg.doDebug = some 1 →
      evalMacro (runHeader cfg) "PP_DEBUG" = some 1 ∧
      evalMacro (runHeader cfg) "PP_SPOTLIGHT_SUPPORT" = some 1) ∧
    (cfg.doDebug = some 0 →
      evalMacro (runHeader cfg) "PP_DEBUG" = some 0 ∧
      evalMacro (runHeader cfg) "PP_SPOTLIGHT_SUPPORT" = some 0 ∧
      lookupDef (runHeader cfg).defs "DEBUG_NEW" =
        some (.ident "DEBUG_NEW_OFF")) ∧
    evalMacro (runHeader cfg) "PP_QC_SUPPORT" = some 0 ∧
    evalMacro (runHeader cfg) "PP_DEBUGNEW_SUPPORT" = some 0 := by
  obtain ⟨d, f⟩ := cfg
  rcases d with _ | v
  · exact absurd h (by simp [Config.supported])
  · have hv : v = 0 ∨ v = 1 := by simpa [Config.supported] using h
    obtain rfl | rfl := hv <;> rcases f with _ | e <;>
      simp [runHeader, runHeaderEnv, initState, initDefs,
        targetMacros, ppOptions, mslIncludes, fixeddecimalGuard,
        blockmoveDefine, doDebugGuards, macosMacros, destOsBlock,
        debugFlagsBlock, ppDebugInclude, debugNewBlock, widgetIncludes,
        myNotationIncl, macGuiApp, defineM, includeH, errorM, isDefinedM,
        lookupDef, evalCond, evalExpr, evalFuel, evalMacro]

/-- Witness for C3 at the concrete configuration with `_do_debug` 0. -/
theorem headerDebugFlags_witness :
    evalMacro (runHeader ⟨some 0, none⟩) "PP_DEBUG" = some 0 :=
  ((headerDebugFlags ⟨some 0, none⟩ (Or.inl rfl)).2.1 rfl).1

/-- C4: after a successful expansion every symbol of the downstream
macro contract is defined: `PP_Target_Carbon`, `TARGET_API_MAC_OSX`,
`PP_DEBUG`, `PP_SPOTLIGHT_SUPPORT` and `_mac_gui_app`. -/
theorem headerContractDefined (cfg : Config) (h : cfg.supported) :
    isDefinedM (runHeader cfg) "PP_Target_Carbon" = true ∧
    isDefinedM (runHeader cfg) "TARGET_API_MAC_OSX" = true ∧
    isDefinedM (runHeader cfg) "PP_DEBUG" = true ∧
    isDefinedM (runHeader cfg) "PP_SPOTLIGHT_SUPPORT" = true ∧
    isDefinedM (runHeader cfg) "_mac_gui_app" = true := by
  obtain ⟨d, f⟩ := cfg
  rcases d with _ | v
  · exact absurd h (by simp [Config.supported])
  · have hv : v = 0 ∨ v = 1 := by simpa [Config.supported] using h
    obtain rfl | rfl := hv <;> rcases f with _ | e <;>
      simp [runHeader, runHeaderEnv, initState, initDefs,
        targetMacros, ppOptions, mslIncludes, fixeddecimalGuard,
        blockmoveDefine, doDebugGuards, macosMacros, destOsBlock,
        debugFlagsBlock, ppDebugInclude, debugNewBlock, widgetIncludes,
        myNotationIncl, macGuiApp, defineM, includeH, errorM, isDefinedM,
        lookupDef, evalCond, evalExpr, evalFuel, evalMacro]

/-- Witness for C4 at the concrete configuration with `_do_debug` 1. -/
theorem headerContractDefined_witness :
    isDefinedM (runHeader ⟨some 1, none⟩) "_mac_gui_app" = true :=
  (headerContractDefined ⟨some 1, none⟩ (Or.inr rfl)).2.2.2.2

/-- C5: the Pascal-string and dialog-subsystem flags are independent of
`_do_debug`: `PP_Supports_Pascal_Strings` is 1,
`PP_StdDialogs_Option` is defined as `PP_StdDialogs_NavServicesOnly`,
and `PP_Uses_PowerPlant_Namespace` is 0 in every supported
configuration. -/
theorem headerStableOptions (cfg : Config) (h : cfg.supported) :
    evalMacro (runHeader cfg) "PP_Supports_Pascal_Strings" = some 1 ∧
    lookupDef (runHeader cfg).defs "PP_StdDialogs_Option" =
      some (.ident "PP_StdDialogs_NavServicesOnly") ∧
    evalMacro (runHeader cfg) "PP_Uses_PowerPlant_Namespace" = some 0 := by
  obtain ⟨d, f⟩ := cfg
  rcases d with _ | v
  · exact absurd h (by simp [Config.supported])
  · have hv : v = 0 ∨ v = 1 := by simpa [Config.supported] using h
    obtain rfl | rfl := hv <;> rcases f with _ | e <;>
      simp [runHeader, runHeaderEnv, initState, initDefs,
        targetMacros, ppOptions, mslIncludes, fixeddecimalGuard,
        blockmoveDefine, doDebugGuards, macosMacros, destOsBlock,
        debugFlagsBlock, ppDebugInclude, debugNewBlock, widgetIncludes,
        myNotationIncl, macGuiApp, defineM, includeH, errorM, isDefinedM,
        lookupDef, evalCond, evalExpr, evalFuel, evalMacro]

/-- Witness for C5 at the concrete configuration with `_do_debug` 0. -/
theorem headerStableOptions_witness :
    evalMacro (runHeader ⟨some 0, none⟩) "PP_Supports_Pascal_Strings" =
      some 1 :=
  (headerStableOptions ⟨some 0, none⟩ (Or.inl rfl)).1

/-- C6: in both supported configurations the include log is exactly the
fixed list of headers, so the widget chain `LTable.h` through
`UControlRegistry.h` is included unconditionally, contiguously and in
source order. -/
theorem headerIncludes_eq (cfg : Config) (h : cfg.supported) :
    (runHeader cfg).includes = headerIncludeList ∧
    List.IsInfix widgetChain (runHeader cfg).includes := by
  obtain ⟨d, f⟩ := cfg
  rcases d with _ | v
  · exact absurd h (by simp [Config.supported])
  · have hv : v = 0 ∨ v = 1 := by simpa [Config.supported] using h
    obtain rfl | rfl := hv <;> rcases f with _ | e <;>
      refine ⟨by
        simp [runHeader, runHeaderEnv, initState, initDefs,
          targetMacros, ppOptions, mslIncludes, fixeddecimalGuard,
          blockmoveDefine, doDebugGuards, macosMacros, destOsBlock,
          debugFlagsBlock, ppDebugInclude, debugNewBlock, widgetIncludes,
          myNotationIncl, macGuiApp, defineM, includeH, errorM, isDefinedM,
          lookupDef, evalCond, evalExpr, evalFuel, evalMacro,
          headerIncludeList, widgetChain], ?_⟩ <;>
      · rw [(by
          simp [runHeader, runHeaderEnv, initState, initDefs,
            targetMacros, ppOptions, mslIncludes, fixeddecimalGuard,
            blockmoveDefine, doDebugGuards, macosMacros, destOsBlock,
            debugFlagsBlock, ppDebugInclude, debugNewBlock, widgetIncludes,
            myNotationIncl, macGuiApp, defineM, includeH, errorM, isDefinedM,
            lookupDef, evalCond, evalExpr, evalFuel, evalMacro,
            headerIncludeList, widgetChain] :
          (runHeader ⟨_, _⟩).includes = headerIncludeList)]
        exact ⟨["MSLCarbonPrefix.h", "cmath", "fp.h", "complex",
          "PP_Debug.h"], ["my_notation.h"], rfl⟩

/-- Witness for C6 at the concrete configuration with `_do_debug` 1. -/
theorem headerIncludes_eq_witness :
    (runHeader ⟨some 1, none⟩).includes = headerIncludeList :=
  (headerIncludes_eq ⟨some 1, none⟩ (Or.inr rfl)).1

/-- An ambient macro environment is admissible when it does not itself
predefine the two macros the configuration controls. -/
def envOk (env : List (String × PPExpr)) : Prop :=
  lookupDef env "_do_debug" = none ∧ lookupDef env "FIXEDDECIMAL" = none

/-- The observable actions of the header (its emitted defines, its
includes and its errors) are the same over any admissible ambient
environment as over the empty one. -/
theorem runHeaderEnv_observables (cfg : Config)
    (env : List (String × PPExpr)) (h : envOk env) :
    (runHeaderEnv cfg env).emitted = (runHeader cfg).emitted ∧
    (runHeaderEnv cfg env).includes = (runHeader cfg).includes ∧
    (runHeaderEnv cfg env).errors = (runHeader cfg).errors := by
  obtain ⟨h1, h2⟩ := h
  obtain ⟨d, f⟩ := cfg
  rcases d with _ | v
  · rcases f with _ | e <;>
      simp [runHeader, runHeaderEnv, initState, initDefs,
        targetMacros, ppOptions, mslIncludes, fixeddecimalGuard,
        blockmoveDefine, doDebugGuards, macosMacros, destOsBlock,
        debugFlagsBlock, ppDebugInclude, debugNewBlock, widgetIncludes,
        myNotationIncl, macGuiApp, defineM, includeH, errorM, isDefinedM,
        lookupDef, evalCond, evalExpr, evalFuel, evalMacro, h1, h2]
  · by_cases hv0 : v = 0
    · subst hv0
      rcases f with _ | e <;>
        simp [runHeader, runHeaderEnv, initState, initDefs,
          targetMacros, ppOptions, mslIncludes, fixeddecimalGuard,
          blockmoveDefine, doDebugGuards, macosMacros, destOsBlock,
          debugFlagsBlock, ppDebugInclude, debugNewBlock, widgetIncludes,
          myNotationIncl, macGuiApp, defineM, includeH, errorM, isDefinedM,
          lookupDef, evalCond, evalExpr, evalFuel, evalMacro, h1, h2]
    · by_cases hv1 : v = 1
      · subst hv1
        rcases f with _ | e <;>
          simp [runHeader, runHeaderEnv, initState, initDefs,
            targetMacros, ppOptions, mslIncludes, fixeddecimalGuard,
            blockmoveDefine, doDebugGuards, macosMacros, destOsBlock,
            debugFlagsBlock, ppDebugInclude, debugNewBlock, widgetIncludes,
            myNotationIncl, macGuiApp, defineM, includeH, errorM, isDefinedM,
            lookupDef, evalCond, evalExpr, evalFuel, evalMacro, h1, h2]
      · rcases f with _ | e <;>
          simp [runHeader, runHeaderEnv, initState, initDefs,
            targetMacros, ppOptions, mslIncludes, fixeddecimalGuard,
            blockmoveDefine, doDebugGuards, macosMacros, destOsBlock,
            debugFlagsBlock, ppDebugInclude, debugNewBlock, widgetIncludes,
            myNotationIncl, macGuiApp, defineM, includeH, errorM, isDefinedM,
            lookupDef, evalCond, evalExpr, evalFuel, evalMacro, h1, h2,
            hv0, hv1]

/-- C7: expansion is deterministic.  Two runs from the same
configuration (same `_do_debug` status and value, same prior
`FIXEDDECIMAL` definedness), whatever other macros their environments
predefine, emit the same macro definitions, include the same headers in
the same order, and raise the same errors. -/
theorem headerDeterministic (cfg : Config)
    (env1 env2 : List (String × PPExpr))
    (h1 : envOk env1) (h2 : envOk env2) :
    (runHeaderEnv cfg env1).emitted = (runHeaderEnv cfg env2).emitted ∧
    (runHeaderEnv cfg env1).includes = (runHeaderEnv cfg env2).includes ∧
    (runHeaderEnv cfg env1).errors = (runHeaderEnv cfg env2).errors := by
  obtain ⟨e1, i1, r1⟩ := runHeaderEnv_observables cfg env1 h1
  obtain ⟨e2, i2, r2⟩ := runHeaderEnv_observables cfg env2 h2
  exact ⟨e1.trans e2.symm, i1.trans i2.symm, r1.trans r2.symm⟩

/-- Witness for C7: two environments differing in an unrelated macro
yield the same include log. -/
theorem headerDeterministic_witness :
    (runHeaderEnv ⟨some 1, none⟩
        [("PP_USE_MOREFILES", PPExpr.num 1)]).includes =
      (runHeaderEnv ⟨some 1, none⟩ []).includes :=
  (headerDeterministic ⟨some 1, none⟩
    [("PP_USE_MOREFILES", PPExpr.num 1)] []
    ⟨rfl, rfl⟩ ⟨rfl, rfl⟩).2.1

/-- C8: in every supported configuration the DebugNew leak-log block is
unreachable: the header never includes `new.h` and never defines the
macro `new`. -/
theorem headerNeverRedefinesNew (cfg : Config) (h : cfg.supported) :
    lookupDef (runHeader cfg).defs "new" = none ∧
    "new.h" ∉ (runHeader cfg).includes := by
  obtain ⟨d, f⟩ := cfg
  rcases d with _ | v
  · exact absurd h (by simp [Config.supported])
  · have hv : v = 0 ∨ v = 1 := by simpa [Config.supported] using h
    obtain rfl | rfl := hv <;> rcases f with _ | e <;>
      simp [runHeader, runHeaderEnv, initState, initDefs,
        targetMacros, ppOptions, mslIncludes, fixeddecimalGuard,
        blockmoveDefine, doDebugGuards, macosMacros, destOsBlock,
        debugFlagsBlock, ppDebugInclude, debugNewBlock, widgetIncludes,
        myNotationIncl, macGuiApp, defineM, includeH, errorM, isDefinedM,
        lookupDef, evalCond, evalExpr, evalFuel, evalMacro]

/-- Witness for C8 at the concrete configuration with `_do_debug` 1. -/
theorem headerNeverRedefinesNew_witness :
    lookupDef (runHeader ⟨some 1, none⟩).defs "new" = none :=
  (headerNeverRedefinesNew ⟨some 1, none⟩ (Or.inr rfl)).1

/-- C9: the header is conservative about `FIXEDDECIMAL`: a prior
definition is kept unchanged, an absent one is replaced by 1, in either
case the macro is defined afterwards, and the guard changes the
definition of no other macro. -/
theorem headerFixeddecimalConservative (cfg : Config) :
    (∀ e, cfg.fixeddecimal = some e →
      lookupDef (runHeader cfg).defs "FIXEDDECIMAL" = some e) ∧
    (cfg.fixeddecimal = none →
      lookupDef (runHeader cfg).defs "FIXEDDECIMAL" = some (.num 1)) ∧
    isDefinedM (runHeader cfg) "FIXEDDECIMAL" = true ∧
    (∀ (s : PPState) (n : String), n ≠ "FIXEDDECIMAL" →
      lookupDef (fixeddecimalGuard s).defs n = lookupDef s.defs n) := by
  have frame : ∀ (s : PPState) (n : String), n ≠ "FIXEDDECIMAL" →
      lookupDef (fixeddecimalGuard s).defs n = lookupDef s.defs n := by
    intro s n hn
    unfold fixeddecimalGuard
    by_cases hd : isDefinedM s "FIXEDDECIMAL"
    · simp [hd]
    · simp [hd, defineM, lookupDef, Ne.symm hn]
  have key : lookupDef (runHeader cfg).defs "FIXEDDECIMAL" =
      some (cfg.fixeddecimal.getD (.num 1)) := by
    obtain ⟨d, f⟩ := cfg
    rcases d with _ | v
    · rcases f with _ | e <;>
        simp [runHeader, runHeaderEnv, initState, initDefs,
          targetMacros, ppOptions, mslIncludes, fixeddecimalGuard,
          blockmoveDefine, doDebugGuards, macosMacros, destOsBlock,
          debugFlagsBlock, ppDebugInclude, debugNewBlock, widgetIncludes,
          myNotationIncl, macGuiApp, defineM, includeH, errorM, isDefinedM,
          lookupDef, evalCond, evalExpr, evalFuel, evalMacro]
    · by_cases hv0 : v = 0
      · subst hv0
        rcases f with _ | e <;>
          simp [runHeader, runHeaderEnv, initState, initDefs,
            targetMacros, ppOptions, mslIncludes, fixeddecimalGuard,
            blockmoveDefine, doDebugGuards, macosMacros, destOsBlock,
            debugFlagsBlock, ppDebugInclude, debugNewBlock, widgetIncludes,
            myNotationIncl, macGuiApp, defineM, includeH, errorM, isDefinedM,
            lookupDef, evalCond, evalExpr, evalFuel, evalMacro]
      · by_cases hv1 : v = 1
        · subst hv1
          rcases f with _ | e <;>
            simp [runHeader, runHeaderEnv, initState, initDefs,
              targetMacros, ppOptions, mslIncludes, fixeddecimalGuard,
              blockmoveDefine, doDebugGuards, macosMacros, destOsBlock,
              debugFlagsBlock, ppDebugInclude, debugNewBlock, widgetIncludes,
              myNotationIncl, macGuiApp, defineM, includeH, errorM, isDefinedM,
              lookupDef, evalCond, evalExpr, evalFuel, evalMacro]
        · rcases f with _ | e <;>
            simp [runHeader, runHeaderEnv, initState, initDefs,
              targetMacros, ppOptions, mslIncludes, fixeddecimalGuard,
              blockmoveDefine, doDebugGuards, macosMacros, destOsBlock,
              debugFlagsBlock, ppDebugInclude, debugNewBlock, widgetIncludes,
              myNotationIncl, macGuiApp, defineM, includeH, errorM, isDefinedM,
              lookupDef, evalCond, evalExpr, evalFuel, evalMacro, hv0, hv1]
  refine ⟨fun e he => ?_, fun hf => ?_, ?_, frame⟩
  · rw [key, he]; rfl
  · rw [key, hf]; rfl
  · simp [isDefinedM, key]

/-- Witness for C9: a prior definition of `FIXEDDECIMAL` as 7
survives the header. -/
theorem headerFixeddecimalConservative_witness :
    lookupDef (runHeader ⟨some 0, some (.num 7)⟩).defs "FIXEDDECIMAL" =
      some (.num 7) :=
  (headerFixeddecimalConservative ⟨some 0, some (.num 7)⟩).1 (.num 7) rfl

/-- C10: `Debug_Throw` and `Debug_Signal` are defined by the header if
and only if `_do_debug` is 1: they appear among the emitted defines,
and are defined in the final state, exactly in the debug
configuration. -/
theorem headerDebugThrowSignal (cfg : Config) (h : cfg.supported) :
    (("Debug_Throw", PPExpr.empty) ∈ (runHeader cfg).emitted ↔
      cfg.doDebug = some 1) ∧
    (("Debug_Signal", PPExpr.empty) ∈ (runHeader cfg).emitted ↔
      cfg.doDebug = some 1) ∧
    (isDefinedM (runHeader cfg) "Debug_Throw" = true ↔
      cfg.doDebug = some 1) ∧
    (isDefinedM (runHeader cfg) "Debug_Signal" = true ↔
      cfg.doDebug = some 1) := by
  obtain ⟨d, f⟩ := cfg
  rcases d with _ | v
  · exact absurd h (by simp [Config.supported])
  · have hv : v = 0 ∨ v = 1 := by simpa [Config.supported] using h
    obtain rfl | rfl := hv <;> rcases f with _ | e <;>
      simp [runHeader, runHeaderEnv, initState, initDefs,
        targetMacros, ppOptions, mslIncludes, fixeddecimalGuard,
        blockmoveDefine, doDebugGuards, macosMacros, destOsBlock,
        debugFlagsBlock, ppDebugInclude, debugNewBlock, widgetIncludes,
        myNotationIncl, macGuiApp, defineM, includeH, errorM, isDefinedM,
        lookupDef, evalCond, evalExpr, evalFuel, evalMacro]

/-- Witness for C10 at the concrete configuration with `_do_debug` 1. -/
theorem headerDebugThrowSignal_witness :
    ("Debug_Throw", PPExpr.empty) ∈ (runHeader ⟨some 1, none⟩).emitted :=
  (headerDebugThrowSignal ⟨some 1, none⟩ (Or.inr rfl)).1.mpr rfl
